import Mathlib

/-!
# Reservation store and request resolver of `server.js`

A shallow embedding of the reservation core of `server.js`: the six store
functions (`addReservation`, `updateReservation`, `getReservationAll`,
`getReservationById`, `getReservationBylnglat`, `getReservationByUserId`), the
`GET /reservation` handler that picks one of them from the presence of the
query fields, and the `GET /reservationAll` handler.

Modelling decisions.

* The global `connection` is the state: whether it still delivers queries, the
  rows of table `reservation` in store order, and the table's `auto_increment`
  counter.  Every store function takes the connection and returns the outcome
  of its `connection.query` callback (`reject(err)` is `Except.error`,
  `resolve(x)` is `Except.ok`) together with the connection afterwards.
* Each SQL statement is given the meaning MySQL gives it, in strict SQL mode:
  `BETWEEN` is inclusive, `LIMIT 1` keeps the first matching row, comparisons
  with `NULL` are unknown and a `WHERE` clause keeps a row only when it is
  true, and a value longer than its `VARCHAR(n)` column is rejected when a row
  would be written.
* `CREATE TABLE reservation` names no collation, so `=` on the `VARCHAR`
  columns `user_id` and `state` is the `=` of whatever collation the server
  gives the table.  The connection carries that collation; the fresh connection
  has a case-insensitive one, as every default collation of MySQL is.
* `DOUBLE` values are exact rationals.  Query fields carry the value MySQL
  reads them as (`id` a natural number, the coordinates rationals); an absent
  field is `none`, which the driver sends as `NULL`.
* The store functions take scalar arguments.  The driver also accepts an
  object for a `?` and writes it into the statement as `key = value, ...`;
  `updateReservationWith` covers `updateReservation` for such a `state`.
-/

namespace Server

/-- A row of table `reservation(id, user_id, longitude, latitude, state)`. -/
structure Reservation where
  id : Nat
  user_id : String
  longitude : Rat
  latitude : Rat
  state : String
deriving DecidableEq

/-- The `err` a `connection.query` callback can receive. -/
inductive StoreError where
  /-- The connection did not deliver the query. -/
  | connectionLost
  /-- A value does not fit its `VARCHAR` column (`ER_DATA_TOO_LONG`). -/
  | dataTooLong
  /-- The `INT` key range is used up (`ER_DUP_ENTRY` on the last key). -/
  | dupEntry
deriving DecidableEq

/-- The `result` of an `INSERT` or `UPDATE`. -/
structure OkPacket where
  affectedRows : Nat
  insertId : Nat
  changedRows : Nat
deriving DecidableEq

/-- A collation, given by the weights it compares strings by: two strings are
equal under it when their weights are. -/
structure Collation where
  weight : String → List Nat

/-- SQL `a = b` on strings under the collation. -/
def Collation.equal (k : Collation) (a b : String) : Bool :=
  k.weight a == k.weight b

/-- A collation that ignores the case of the letters `A` to `Z`, as the default
collations of MySQL do (`latin1_swedish_ci`, `utf8_general_ci`,
`utf8mb4_0900_ai_ci`). -/
def Collation.caseInsensitive : Collation :=
  { weight := fun s => s.toList.map (fun ch => ch.toLower.toNat) }

/-- The global `connection` with the table behind it. -/
structure Connection where
  alive : Bool
  reservation : List Reservation
  autoIncrement : Nat
  collation : Collation

/-- The connection right after `CREATE TABLE reservation (...)` on a server with
a default collation. -/
def Connection.fresh : Connection :=
  { alive := true, reservation := [], autoIncrement := 1,
    collation := Collation.caseInsensitive }

/-- Largest value of an `INT` column. -/
def intMax : Nat := 2147483647

/-! ### SQL expressions of the `WHERE` clauses -/

/-- SQL `a - b` with a nullable left operand. -/
def sqlSub (a : Option Rat) (b : Rat) : Option Rat := a.map (fun x => x - b)

/-- SQL `a + b` with a nullable left operand. -/
def sqlAdd (a : Option Rat) (b : Rat) : Option Rat := a.map (fun x => x + b)

/-- SQL `x >= lo`. -/
def sqlGe (x : Rat) (lo : Option Rat) : Option Bool := lo.map (fun l => decide (l ≤ x))

/-- SQL `x <= hi`. -/
def sqlLe (x : Rat) (hi : Option Rat) : Option Bool := hi.map (fun h => decide (x ≤ h))

/-- SQL three-valued `AND`. -/
def sqlAnd : Option Bool → Option Bool → Option Bool
  | some false, _ => some false
  | _, some false => some false
  | some true, some true => some true
  | _, _ => none

/-- SQL `x BETWEEN lo AND hi`, that is `x >= lo AND x <= hi`. -/
def sqlBetween (x : Rat) (lo hi : Option Rat) : Option Bool :=
  sqlAnd (sqlGe x lo) (sqlLe x hi)

/-- The condition `longitude BETWEEN ? - 0.0002 AND ? + 0.0002 AND latitude BETWEEN
? - 0.0002 AND ? + 0.0002 AND state = 'wait'` with the parameters
`[longitude, longitude, latitude, latitude]`, under the table's collation. -/
def lnglatWhere (k : Collation) (longitude latitude : Option Rat) (r : Reservation) :
    Option Bool :=
  sqlAnd
    (sqlAnd
      (sqlBetween r.longitude (sqlSub longitude 0.0002) (sqlAdd longitude 0.0002))
      (sqlBetween r.latitude (sqlSub latitude 0.0002) (sqlAdd latitude 0.0002)))
    (some (k.equal r.state "wait"))

/-! ### Store functions -/

/-- The statement `INSERT INTO reservation(user_id, longitude, latitude, state)
VALUES(?, ?, ?, 'wait')` on the connection. -/
def insertReservation (c : Connection) (userId : String) (longitude latitude : Rat) :
    Except StoreError OkPacket × Connection :=
  if c.alive = false then (.error .connectionLost, c)
  else if 30 < userId.length then (.error .dataTooLong, c)
  else if intMax < c.autoIncrement then (.error .dupEntry, c)
  else
    (.ok { affectedRows := 1, insertId := c.autoIncrement, changedRows := 0 },
     { c with
       reservation := c.reservation ++ [⟨c.autoIncrement, userId, longitude, latitude, "wait"⟩]
       autoIncrement := c.autoIncrement + 1 })

/-- The text `"{ \"result\" : " + insertId + " }"`. -/
def resultText (insertId : Nat) : String :=
  "\x7b \"result\" : " ++ toString insertId ++ " \x7d"

/-- Function `addReservation(userId, longitude, latitude)`. -/
def addReservation (c : Connection) (userId : String) (longitude latitude : Rat) :
    Except StoreError String × Connection :=
  match insertReservation c userId longitude latitude with
  | (.error error, c') => (.error error, c')
  | (.ok result, c') => (.ok (resultText result.insertId), c')

/-- Function `updateReservation(id, state)` on a number and a string: the
statement `UPDATE reservation SET state = ? WHERE id = ?` with the parameters
`[state, id]`. -/
def updateReservation (c : Connection) (id : Nat) (state : String) :
    Except StoreError OkPacket × Connection :=
  if c.alive = false then (.error .connectionLost, c)
  else
    let hit := c.reservation.filter (fun r => decide (r.id = id))
    if hit ≠ [] ∧ 10 < state.length then (.error .dataTooLong, c)
    else
      (.ok { affectedRows := hit.length, insertId := 0,
             changedRows := (hit.filter (fun r => decide (r.state ≠ state))).length },
       { c with
         reservation := c.reservation.map
           (fun r => if r.id = id then { r with state := state } else r) })

/-- The `VARCHAR` columns of the table. -/
inductive TextColumn where
  | user_id
  | state
deriving DecidableEq

/-- The value of a `VARCHAR` column in a row. -/
def TextColumn.read : TextColumn → Reservation → String
  | .user_id, r => r.user_id
  | .state, r => r.state

/-- The row with a `VARCHAR` column set. -/
def TextColumn.write : TextColumn → String → Reservation → Reservation
  | .user_id, v, r => { r with user_id := v }
  | .state, v, r => { r with state := v }

/-- The `n` of `VARCHAR(n)`. -/
def TextColumn.width : TextColumn → Nat
  | .user_id => 30
  | .state => 10

/-- What `updateReservation` may be handed as `state`: a string, or an object
with string values whose keys name `VARCHAR` columns (a request carrying
`state[key]=value` pairs), given by its first pair and the pairs after it.
Other values (arrays, objects with other keys) are not represented. -/
inductive StateArg where
  | text (s : String)
  | object (first : TextColumn × String) (more : List (TextColumn × String))

/-- The row an `UPDATE` with an object for `state` writes.  The driver puts the
object into the statement as its pairs, so the statement reads
`SET state = key1 = 'v1', key2 = 'v2', ...`: `state` becomes the truth value of
the comparison `key1 = 'v1'`, `'1'` or `'0'`, and every later pair is an
assignment of its own, carried out in order. -/
def objectWrite (k : Collation) (first : TextColumn × String)
    (more : List (TextColumn × String)) (r : Reservation) : Reservation :=
  more.foldl (fun row pair => pair.1.write pair.2 row)
    { r with state := if k.equal (first.1.read r) first.2 then "1" else "0" }

/-- Function `updateReservation(id, state)` with a string or an object for
`state`: on a string it is `updateReservation`; on an object the statement
`UPDATE reservation SET state = ? WHERE id = ?` writes `objectWrite` to the
rows with that id. -/
def updateReservationWith (c : Connection) (id : Nat) :
    StateArg → Except StoreError OkPacket × Connection
  | .text state => updateReservation c id state
  | .object first more =>
    if c.alive = false then (.error .connectionLost, c)
    else
      let hit := c.reservation.filter (fun r => decide (r.id = id))
      if hit ≠ [] ∧ more.any (fun pair => decide (pair.1.width < pair.2.length)) = true then
        (.error .dataTooLong, c)
      else
        (.ok { affectedRows := hit.length, insertId := 0,
               changedRows := (hit.filter
                 (fun r => decide (objectWrite c.collation first more r ≠ r))).length },
         { c with
           reservation := c.reservation.map
             (fun r => if r.id = id then objectWrite c.collation first more r else r) })

/-- Function `getReservationAll()`: `SELECT * FROM reservation`. -/
def getReservationAll (c : Connection) : Except StoreError (List Reservation) × Connection :=
  if c.alive = false then (.error .connectionLost, c)
  else (.ok c.reservation, c)

/-- Function `getReservationById(id)`: `SELECT * FROM reservation WHERE id = ?`. -/
def getReservationById (c : Connection) (id : Nat) :
    Except StoreError (List Reservation) × Connection :=
  if c.alive = false then (.error .connectionLost, c)
  else (.ok (c.reservation.filter (fun r => decide (r.id = id))), c)

/-- Function `getReservationBylnglat(longitude, latitude)`: the rows satisfying
`lnglatWhere`, cut by `LIMIT 1`. -/
def getReservationBylnglat (c : Connection) (longitude latitude : Option Rat) :
    Except StoreError (List Reservation) × Connection :=
  if c.alive = false then (.error .connectionLost, c)
  else
    (.ok ((c.reservation.filter
        (fun r => decide (lnglatWhere c.collation longitude latitude r = some true))).take 1),
     c)

/-- Function `getReservationByUserId(userId)`:
`SELECT * FROM reservation WHERE user_id = ?`. -/
def getReservationByUserId (c : Connection) (userId : String) :
    Except StoreError (List Reservation) × Connection :=
  if c.alive = false then (.error .connectionLost, c)
  else (.ok (c.reservation.filter (fun r => c.collation.equal r.user_id userId)), c)

/-! ### Request resolver -/

/-- The fields of `request.query` the handler reads; `none` is an absent field. -/
structure Query where
  userId : Option String
  longitude : Option Rat
  latitude : Option Rat
  id : Option Nat
  state : Option String
deriving DecidableEq

/-- A call of one store function with its arguments. -/
inductive StoreCall where
  | addReservation (userId : String) (longitude latitude : Rat)
  | updateReservation (id : Nat) (state : String)
  | getReservationAll
  | getReservationById (id : Nat)
  | getReservationBylnglat (longitude latitude : Option Rat)
  | getReservationByUserId (userId : String)
deriving DecidableEq

/-- What a resolved promise carries. -/
inductive Payload where
  | text (s : String)
  | packet (p : OkPacket)
  | rows (rs : List Reservation)
deriving DecidableEq

/-- What the handler writes: `response.send(resp)` or
`response.status(500).send(err)`. -/
inductive Response where
  | send (body : Payload)
  | status500 (err : StoreError)
deriving DecidableEq

/-- The `if ... else if ...` chain of `app.get("/reservation")`: which store
function is called, with which arguments. -/
def reservationCall (q : Query) : StoreCall :=
  match q.userId, q.longitude, q.latitude with
  | some userId, some longitude, some latitude =>
      .addReservation userId longitude latitude
  | _, _, _ =>
    match q.id, q.state with
    | some id, some state => .updateReservation id state
    | _, _ =>
      match q.id with
      | some id => .getReservationById id
      | none =>
        match q.userId with
        | some userId => .getReservationByUserId userId
        | none => .getReservationBylnglat q.longitude q.latitude

/-- Lift a store function's outcome to a payload. -/
def settle {α : Type} (wrap : α → Payload) (out : Except StoreError α × Connection) :
    Except StoreError Payload × Connection :=
  (out.1.map wrap, out.2)

/-- Run a call on the connection. -/
def StoreCall.run (c : Connection) : StoreCall → Except StoreError Payload × Connection
  | .addReservation userId longitude latitude =>
      settle .text (Server.addReservation c userId longitude latitude)
  | .updateReservation id state => settle .packet (Server.updateReservation c id state)
  | .getReservationAll => settle .rows (Server.getReservationAll c)
  | .getReservationById id => settle .rows (Server.getReservationById c id)
  | .getReservationBylnglat longitude latitude =>
      settle .rows (Server.getReservationBylnglat c longitude latitude)
  | .getReservationByUserId userId => settle .rows (Server.getReservationByUserId c userId)

/-- The `.then(...)` and `.catch(...)` every branch attaches. -/
def respond : Except StoreError Payload → Response
  | .ok resp => .send resp
  | .error err => .status500 err

/-- Handler `app.get("/reservation")`. -/
def reservationRoute (c : Connection) (q : Query) : Response × Connection :=
  let out := (reservationCall q).run c
  (respond out.1, out.2)

/-- Handler `app.get("/reservationAll")`. -/
def reservationAllRoute (c : Connection) : Response × Connection :=
  let out := StoreCall.getReservationAll.run c
  (respond out.1, out.2)

/-- The table obeys `PRIMARY KEY (id)` and every key in use lies below the
`auto_increment` counter. -/
def Connection.WellFormed (c : Connection) : Prop :=
  (c.reservation.map (fun r => r.id)).Nodup ∧ ∀ r ∈ c.reservation, r.id < c.autoIncrement

instance (c : Connection) : Decidable c.WellFormed := by
  unfold Connection.WellFormed; infer_instance

/-! ### Vocabulary of the statements -/

/-- Value of a decimal digit string, most significant digit first. -/
def decimalValue (cs : List Char) : Nat :=
  cs.foldl (fun a ch => 10 * a + (ch.toNat - 48)) 0

/-- Condition 1 of the dispatch order: `userId`, `longitude` and `latitude` are
all present. -/
def Query.hasCreateFields (q : Query) : Prop :=
  q.userId.isSome = true ∧ q.longitude.isSome = true ∧ q.latitude.isSome = true

/-- Condition 2 of the dispatch order: `id` and `state` are both present. -/
def Query.hasUpdateFields (q : Query) : Prop :=
  q.id.isSome = true ∧ q.state.isSome = true

/-- Condition 3 read as "`id` is the only field present". -/
def Query.onlyId (q : Query) : Prop :=
  q.id.isSome = true ∧ q.userId = none ∧ q.longitude = none ∧ q.latitude = none ∧
    q.state = none

/-- Condition 4 read as "`userId` is the only field present". -/
def Query.onlyUserId (q : Query) : Prop :=
  q.userId.isSome = true ∧ q.id = none ∧ q.longitude = none ∧ q.latitude = none ∧
    q.state = none

/-- The call goes to `getReservationBylnglat`. -/
def StoreCall.isBylnglat : StoreCall → Bool
  | .getReservationBylnglat _ _ => true
  | _ => false

instance (q : Query) : Decidable q.hasCreateFields := by
  unfold Query.hasCreateFields; infer_instance

instance (q : Query) : Decidable q.hasUpdateFields := by
  unfold Query.hasUpdateFields; infer_instance

instance (q : Query) : Decidable q.onlyId := by
  unfold Query.onlyId; infer_instance

instance (q : Query) : Decidable q.onlyUserId := by
  unfold Query.onlyUserId; infer_instance

/-- The table after `addReservation("u1", 10.00000, 20.00000)` on the fresh
connection. -/
def scenarioCreated : Connection := (addReservation Connection.fresh "u1" 10 20).2

/-- The table after `updateReservation(1, "done")` on `scenarioCreated`. -/
def scenarioDone : Connection := (updateReservation scenarioCreated 1 "done").2

/-- The table after `updateReservation(1, "WAIT")` on `scenarioCreated`. -/
def scenarioShout : Connection := (updateReservation scenarioCreated 1 "WAIT").2

/-! ### Auxiliary facts: decimal rendering -/

theorem digitChar_value (k : Nat) (hk : k < 10) : (Nat.digitChar k).toNat - 48 = k := by
  interval_cases k <;> rfl

theorem toDigitsCore_decimal (fuel : Nat) :
    ∀ (n : Nat) (ds : List Char), n < fuel →
      ∃ xs, Nat.toDigitsCore 10 fuel n ds = xs ++ ds ∧ decimalValue xs = n := by
  induction fuel with
  | zero => intro n ds h; omega
  | succ fuel ih =>
    intro n ds h
    unfold Nat.toDigitsCore
    by_cases h0 : n / 10 = 0
    · refine ⟨[Nat.digitChar (n % 10)], by simp [h0], ?_⟩
      have hd := digitChar_value (n % 10) (Nat.mod_lt _ (by decide))
      simp only [decimalValue, List.foldl_cons, List.foldl_nil, hd]
      omega
    · obtain ⟨xs, hxs, hval⟩ := ih (n / 10) (Nat.digitChar (n % 10) :: ds) (by omega)
      refine ⟨xs ++ [Nat.digitChar (n % 10)], by simp [h0, hxs], ?_⟩
      have hd := digitChar_value (n % 10) (Nat.mod_lt _ (by decide))
      unfold decimalValue at hval ⊢
      rw [List.foldl_append, hval]
      simp only [List.foldl_cons, List.foldl_nil, hd]
      omega

theorem decimalValue_toDigits (n : Nat) : decimalValue (Nat.toDigits 10 n) = n := by
  obtain ⟨xs, hxs, hval⟩ := toDigitsCore_decimal (n + 1) n [] (by omega)
  simp only [Nat.toDigits, hxs, List.append_nil, hval]

theorem resultText_injective {a b : Nat} (h : resultText a = resultText b) : a = b := by
  have hd := congrArg String.data h
  simp only [resultText, String.data_append, List.append_assoc] at hd
  have h1 := List.append_cancel_left hd
  have h2 := List.append_cancel_right h1
  have h3 : Nat.toDigits 10 a = Nat.toDigits 10 b := by
    simpa [toString, Nat.repr, List.asString] using h2
  have := congrArg decimalValue h3
  simpa [decimalValue_toDigits] using this

/-! ### Auxiliary facts: the store functions -/

theorem lnglatWhere_some_iff (k : Collation) (lon lat : Rat) (r : Reservation) :
    lnglatWhere k (some lon) (some lat) r = some true ↔
      (k.equal r.state "wait" = true ∧
        lon - 0.0002 ≤ r.longitude ∧ r.longitude ≤ lon + 0.0002 ∧
        lat - 0.0002 ≤ r.latitude ∧ r.latitude ≤ lat + 0.0002) := by
  simp only [lnglatWhere, sqlBetween, sqlGe, sqlLe, sqlSub, sqlAdd, Option.map_some']
  by_cases h1 : lon - 0.0002 ≤ r.longitude <;> by_cases h2 : r.longitude ≤ lon + 0.0002 <;>
    by_cases h3 : lat - 0.0002 ≤ r.latitude <;> by_cases h4 : r.latitude ≤ lat + 0.0002 <;>
    cases h5 : k.equal r.state "wait" <;> simp [sqlAnd, h1, h2, h3, h4]

theorem lnglatWhere_null (k : Collation) (r : Reservation) :
    lnglatWhere k none none r ≠ some true := by
  simp only [lnglatWhere, sqlBetween, sqlGe, sqlLe, sqlSub, sqlAdd, Option.map_none']
  cases h5 : k.equal r.state "wait" <;> simp [sqlAnd]

theorem filter_id_eq_nil (rows : List Reservation) (id : Nat)
    (h : ∀ r ∈ rows, r.id ≠ id) : rows.filter (fun r => decide (r.id = id)) = [] := by
  rw [List.filter_eq_nil_iff]
  intro r hr
  simpa using h r hr

theorem filter_id_of_nodup (rows : List Reservation) (r : Reservation)
    (hnd : (rows.map (fun x => x.id)).Nodup) (hr : r ∈ rows) :
    rows.filter (fun x => decide (x.id = r.id)) = [r] := by
  induction rows with
  | nil => simp at hr
  | cons a rest ih =>
    rw [List.map_cons, List.nodup_cons] at hnd
    rcases List.mem_cons.mp hr with h | h
    · subst h
      have hrest : rest.filter (fun x => decide (x.id = r.id)) = [] := by
        apply filter_id_eq_nil
        intro x hx hxe
        exact hnd.1 (hxe ▸ List.mem_map_of_mem (fun x => x.id) hx)
      simp [List.filter_cons, hrest]
    · have hne : a.id ≠ r.id := by
        intro hae
        exact hnd.1 (hae ▸ List.mem_map_of_mem (fun x => x.id) h)
      simp [List.filter_cons, hne, ih hnd.2 h]

theorem map_id_setState (rows : List Reservation) (id : Nat) (state : String) :
    (rows.map (fun r => if r.id = id then { r with state := state } else r)).map
      (fun r => r.id) = rows.map (fun r => r.id) := by
  rw [List.map_map]
  apply List.map_congr_left
  intro r _
  by_cases h : r.id = id <;> simp [h]

theorem Connection.wellFormed_fresh : Connection.fresh.WellFormed := by
  simp [Connection.WellFormed, Connection.fresh]

theorem insertReservation_wellFormed (c : Connection) (userId : String)
    (longitude latitude : Rat) (h : c.WellFormed) :
    (insertReservation c userId longitude latitude).2.WellFormed := by
  unfold insertReservation
  split_ifs
  · exact h
  · exact h
  · exact h
  · obtain ⟨hnd, hlt⟩ := h
    refine ⟨?_, ?_⟩
    · simp only [List.map_append, List.map_cons, List.map_nil]
      rw [List.nodup_append]
      refine ⟨hnd, List.nodup_singleton _, ?_⟩
      intro x hx hx'
      rw [List.mem_singleton] at hx'
      obtain ⟨r, hr, rfl⟩ := List.mem_map.mp hx
      have := hlt r hr
      omega
    · intro r hr
      simp only [List.mem_append, List.mem_singleton] at hr
      rcases hr with hr | hr
      · have := hlt r hr
        show r.id < c.autoIncrement + 1
        omega
      · subst hr
        show c.autoIncrement < c.autoIncrement + 1
        omega

theorem updateReservation_wellFormed (c : Connection) (id : Nat) (state : String)
    (h : c.WellFormed) : (updateReservation c id state).2.WellFormed := by
  unfold updateReservation
  dsimp only
  split_ifs
  · exact h
  · exact h
  · obtain ⟨hnd, hlt⟩ := h
    refine ⟨?_, ?_⟩
    · show ((c.reservation.map _).map _).Nodup
      rw [map_id_setState]
      exact hnd
    · intro r hr
      obtain ⟨r0, hr0, rfl⟩ := List.mem_map.mp hr
      have := hlt r0 hr0
      by_cases hid : r0.id = id <;> simpa [hid] using this

theorem setState_eq_self (rows : List Reservation) (id : Nat) (state : String)
    (h : ∀ r ∈ rows, r.id ≠ id) :
    rows.map (fun r => if r.id = id then { r with state := state } else r) = rows := by
  conv_rhs => rw [← List.map_id rows]
  apply List.map_congr_left
  intro r hr
  simp [h r hr]

theorem addReservation_ok (c : Connection) (userId : String) (longitude latitude : Rat)
    (halive : c.alive = true) (hlen : userId.length ≤ 30) (hkey : c.autoIncrement ≤ intMax) :
    addReservation c userId longitude latitude =
      (.ok (resultText c.autoIncrement),
       { c with
         reservation :=
           c.reservation ++ [⟨c.autoIncrement, userId, longitude, latitude, "wait"⟩]
         autoIncrement := c.autoIncrement + 1 }) := by
  simp [addReservation, insertReservation, halive, Nat.not_lt.mpr hlen, Nat.not_lt.mpr hkey]

theorem addReservation_ok_inv (c c' : Connection) (userId : String)
    (longitude latitude : Rat) (resp : String)
    (h : addReservation c userId longitude latitude = (.ok resp, c')) :
    c.alive = true ∧ resp = resultText c.autoIncrement ∧
      c' = { c with
             reservation :=
               c.reservation ++ [⟨c.autoIncrement, userId, longitude, latitude, "wait"⟩]
             autoIncrement := c.autoIncrement + 1 } := by
  unfold addReservation insertReservation at h
  split_ifs at h with h1 h2 h3
  · simp at h
  · simp at h
  · simp at h
  · simp only [Prod.mk.injEq, Except.ok.injEq] at h
    exact ⟨by simpa using h1, h.1.symm, h.2.symm⟩

theorem addReservation_reservation (c : Connection) (userId : String)
    (longitude latitude : Rat) :
    (addReservation c userId longitude latitude).2.reservation = c.reservation ∨
      (addReservation c userId longitude latitude).2.reservation =
        c.reservation ++ [⟨c.autoIncrement, userId, longitude, latitude, "wait"⟩] := by
  unfold addReservation insertReservation
  split_ifs
  · exact Or.inl rfl
  · exact Or.inl rfl
  · exact Or.inl rfl
  · exact Or.inr rfl

theorem updateReservation_reservation (c : Connection) (id : Nat) (state : String) :
    (updateReservation c id state).2.reservation = c.reservation ∨
      (updateReservation c id state).2.reservation =
        c.reservation.map (fun r => if r.id = id then { r with state := state } else r) := by
  unfold updateReservation
  dsimp only
  split_ifs
  · exact Or.inl rfl
  · exact Or.inl rfl
  · exact Or.inr rfl

theorem run_reservation (c : Connection) (call : StoreCall) :
    (call.run c).2.reservation = c.reservation ∨
      (∃ row, (call.run c).2.reservation = c.reservation ++ [row]) ∨
      (∃ id state, call = .updateReservation id state ∧
        (call.run c).2.reservation =
          c.reservation.map (fun r => if r.id = id then { r with state := state } else r)) := by
  cases call with
  | addReservation userId longitude latitude =>
    rcases addReservation_reservation c userId longitude latitude with h | h
    · exact Or.inl h
    · exact Or.inr (Or.inl ⟨_, h⟩)
  | updateReservation id state =>
    rcases updateReservation_reservation c id state with h | h
    · exact Or.inl h
    · exact Or.inr (Or.inr ⟨id, state, rfl, h⟩)
  | getReservationAll =>
    left
    show (getReservationAll c).2.reservation = _
    unfold getReservationAll
    split_ifs <;> rfl
  | getReservationById id =>
    left
    show (getReservationById c id).2.reservation = _
    unfold getReservationById
    split_ifs <;> rfl
  | getReservationBylnglat longitude latitude =>
    left
    show (getReservationBylnglat c longitude latitude).2.reservation = _
    unfold getReservationBylnglat
    split_ifs <;> rfl
  | getReservationByUserId userId =>
    left
    show (getReservationByUserId c userId).2.reservation = _
    unfold getReservationByUserId
    split_ifs <;> rfl

theorem addReservation_snd (c : Connection) (userId : String) (longitude latitude : Rat) :
    (addReservation c userId longitude latitude).2 =
      (insertReservation c userId longitude latitude).2 := by
  unfold addReservation
  split <;> simp_all

theorem run_wellFormed (c : Connection) (call : StoreCall) (h : c.WellFormed) :
    (call.run c).2.WellFormed := by
  cases call with
  | addReservation userId longitude latitude =>
    show (addReservation c userId longitude latitude).2.WellFormed
    rw [addReservation_snd]
    exact insertReservation_wellFormed c userId longitude latitude h
  | updateReservation id state => exact updateReservation_wellFormed c id state h
  | getReservationAll =>
    show (getReservationAll c).2.WellFormed
    unfold getReservationAll
    split_ifs <;> exact h
  | getReservationById id =>
    show (getReservationById c id).2.WellFormed
    unfold getReservationById
    split_ifs <;> exact h
  | getReservationBylnglat longitude latitude =>
    show (getReservationBylnglat c longitude latitude).2.WellFormed
    unfold getReservationBylnglat
    split_ifs <;> exact h
  | getReservationByUserId userId =>
    show (getReservationByUserId c userId).2.WellFormed
    unfold getReservationByUserId
    split_ifs <;> exact h

theorem updateReservationWith_text (c : Connection) (id : Nat) (state : String) :
    updateReservationWith c id (.text state) = updateReservation c id state := by
  rfl

theorem scenarioCreated_eq :
    scenarioCreated = ⟨true, [⟨1, "u1", 10, 20, "wait"⟩], 2, Collation.caseInsensitive⟩ := by
  rfl

theorem scenarioDone_eq :
    scenarioDone = ⟨true, [⟨1, "u1", 10, 20, "done"⟩], 2, Collation.caseInsensitive⟩ := by
  rfl

theorem scenarioShout_eq :
    scenarioShout = ⟨true, [⟨1, "u1", 10, 20, "WAIT"⟩], 2, Collation.caseInsensitive⟩ := by
  rfl

theorem scenarioCreated_wellFormed : scenarioCreated.WellFormed := by
  rw [scenarioCreated_eq]
  simp [Connection.WellFormed]

/-! ### The store functions -/

/-- C2 as stated fails: under a default, case-insensitive collation the row of
the scenario, moved to state `"WAIT"`, is still returned by the lookup at
`(10.00005, 20.00005)`, although its state is not `"wait"` and the table holds
no row in state `"wait"` at all. -/
theorem getReservationBylnglat_counterexample :
    getReservationBylnglat scenarioShout (some 10.00005) (some 20.00005) =
      (.ok [⟨1, "u1", 10, 20, "WAIT"⟩], scenarioShout) ∧
    (⟨1, "u1", 10, 20, "WAIT"⟩ : Reservation).state ≠ "wait" ∧
    ¬ ∃ r ∈ scenarioShout.reservation, r.state = "wait" ∧
        10.00005 - 0.0002 ≤ r.longitude ∧ r.longitude ≤ 10.00005 + 0.0002 ∧
        20.00005 - 0.0002 ≤ r.latitude ∧ r.latitude ≤ 20.00005 + 0.0002 := by
  have hne : ¬ ("WAIT" = "wait") := by decide
  have heq : Collation.caseInsensitive.equal "WAIT" "wait" = true := by decide
  refine ⟨?_, hne, ?_⟩
  · rw [scenarioShout_eq]
    simp only [getReservationBylnglat, lnglatWhere_some_iff]
    norm_num [List.filter_cons, heq]
  · rw [scenarioShout_eq]
    simp [hne]

/-- C2 amended: on a connection that delivers the query,
`getReservationBylnglat` at `(lon, lat)` resolves with at most one row; it
resolves with a row exactly when the table holds a row whose state compares
equal to `"wait"` under the table's collation, whose longitude lies in
`[lon - 0.0002, lon + 0.0002]` and whose latitude lies in
`[lat - 0.0002, lat + 0.0002]`, and every row it resolves with is such a row of
the table. -/
theorem getReservationBylnglat_spec (c : Connection) (lon lat : Rat)
    (halive : c.alive = true) :
    ∃ rs, getReservationBylnglat c (some lon) (some lat) = (.ok rs, c) ∧
      rs.length ≤ 1 ∧
      (rs ≠ [] ↔ ∃ r ∈ c.reservation, c.collation.equal r.state "wait" = true ∧
          lon - 0.0002 ≤ r.longitude ∧ r.longitude ≤ lon + 0.0002 ∧
          lat - 0.0002 ≤ r.latitude ∧ r.latitude ≤ lat + 0.0002) ∧
      ∀ r ∈ rs, r ∈ c.reservation ∧ c.collation.equal r.state "wait" = true ∧
          lon - 0.0002 ≤ r.longitude ∧ r.longitude ≤ lon + 0.0002 ∧
          lat - 0.0002 ≤ r.latitude ∧ r.latitude ≤ lat + 0.0002 := by
  refine ⟨(c.reservation.filter
      (fun r => decide (lnglatWhere c.collation (some lon) (some lat) r = some true))).take 1,
    by simp [getReservationBylnglat, halive], ?_, ?_, ?_⟩
  · rw [List.length_take]
    exact Nat.min_le_left _ _
  · constructor
    · intro hne
      cases hf : c.reservation.filter
          (fun r => decide (lnglatWhere c.collation (some lon) (some lat) r = some true)) with
      | nil => simp [hf] at hne
      | cons a rest =>
        have ha : a ∈ c.reservation.filter
            (fun r => decide (lnglatWhere c.collation (some lon) (some lat) r = some true)) := by
          rw [hf]; exact List.mem_cons_self _ _
        rw [List.mem_filter] at ha
        exact ⟨a, ha.1, (lnglatWhere_some_iff c.collation lon lat a).mp (by simpa using ha.2)⟩
    · rintro ⟨r, hr, hbox⟩
      have hmem : r ∈ c.reservation.filter
          (fun r => decide (lnglatWhere c.collation (some lon) (some lat) r = some true)) := by
        rw [List.mem_filter]
        exact ⟨hr, by simpa using (lnglatWhere_some_iff c.collation lon lat r).mpr hbox⟩
      cases hf : c.reservation.filter
          (fun r => decide (lnglatWhere c.collation (some lon) (some lat) r = some true)) with
      | nil => rw [hf] at hmem; simp at hmem
      | cons a rest => simp
  · intro r hr
    have hmem := List.mem_of_mem_take hr
    rw [List.mem_filter] at hmem
    exact ⟨hmem.1, (lnglatWhere_some_iff c.collation lon lat r).mp (by simpa using hmem.2)⟩

/-- Witness for C2 amended, on the scenario of the specification: after
`addReservation("u1", 10.00000, 20.00000)` the lookup at `(10.00005, 20.00005)`
resolves with that row, and after `updateReservation(1, "done")` the same
lookup resolves with no row. -/
theorem getReservationBylnglat_spec_witness :
    scenarioCreated.alive = true ∧
    getReservationBylnglat scenarioCreated (some 10.00005) (some 20.00005) =
      (.ok [⟨1, "u1", 10, 20, "wait"⟩], scenarioCreated) ∧
    getReservationBylnglat scenarioDone (some 10.00005) (some 20.00005) =
      (.ok [], scenarioDone) ∧
    ∃ rs, getReservationBylnglat scenarioCreated (some 10.00005) (some 20.00005) =
        (.ok rs, scenarioCreated) ∧
      rs.length ≤ 1 ∧
      (rs ≠ [] ↔ ∃ r ∈ scenarioCreated.reservation,
          scenarioCreated.collation.equal r.state "wait" = true ∧
          10.00005 - 0.0002 ≤ r.longitude ∧ r.longitude ≤ 10.00005 + 0.0002 ∧
          20.00005 - 0.0002 ≤ r.latitude ∧ r.latitude ≤ 20.00005 + 0.0002) ∧
      ∀ r ∈ rs, r ∈ scenarioCreated.reservation ∧
          scenarioCreated.collation.equal r.state "wait" = true ∧
          10.00005 - 0.0002 ≤ r.longitude ∧ r.longitude ≤ 10.00005 + 0.0002 ∧
          20.00005 - 0.0002 ≤ r.latitude ∧ r.latitude ≤ 20.00005 + 0.0002 := by
  have hw : Collation.caseInsensitive.equal "wait" "wait" = true := by decide
  have hd : Collation.caseInsensitive.equal "done" "wait" = false := by decide
  refine ⟨rfl, ?_, ?_, getReservationBylnglat_spec scenarioCreated 10.00005 20.00005 rfl⟩
  · rw [scenarioCreated_eq]
    simp only [getReservationBylnglat, lnglatWhere_some_iff]
    norm_num [List.filter_cons, hw]
  · rw [scenarioDone_eq]
    simp only [getReservationBylnglat, lnglatWhere_some_iff]
    norm_num [List.filter_cons, hd]

/-- C3: on a well-formed table, when `addReservation` resolves and its text
reports identifier `i`, `getReservationById(i)` on the table afterwards resolves
with exactly one row, which has id `i`, state `"wait"` and the supplied
`user_id`, `longitude` and `latitude`. -/
theorem addReservation_getReservationById (c c' : Connection) (userId : String)
    (longitude latitude : Rat) (resp : String) (i : Nat) (hwf : c.WellFormed)
    (hadd : addReservation c userId longitude latitude = (.ok resp, c'))
    (hi : resp = resultText i) :
    getReservationById c' i = (.ok [⟨i, userId, longitude, latitude, "wait"⟩], c') := by
  obtain ⟨halive, hresp, hc'⟩ := addReservation_ok_inv c c' userId longitude latitude resp hadd
  have hkey : i = c.autoIncrement := resultText_injective (hi.symm.trans hresp)
  subst hkey
  have hold : c.reservation.filter (fun r => decide (r.id = c.autoIncrement)) = [] := by
    apply filter_id_eq_nil
    intro r hr
    have := hwf.2 r hr
    omega
  subst hc'
  simp [getReservationById, halive, List.filter_append, hold]

/-- Witness for C3: the first reservation on the fresh connection. -/
theorem addReservation_getReservationById_witness :
    Connection.fresh.WellFormed ∧
    addReservation Connection.fresh "u1" 10 20 = (.ok (resultText 1), scenarioCreated) ∧
    getReservationById scenarioCreated 1 =
      (.ok [⟨1, "u1", 10, 20, "wait"⟩], scenarioCreated) :=
  ⟨Connection.wellFormed_fresh, rfl,
   addReservation_getReservationById Connection.fresh scenarioCreated "u1" 10 20
     (resultText 1) 1 Connection.wellFormed_fresh rfl rfl⟩

/-- C4: on a well-formed table and a connection that delivers queries, for a
row of the table and a state of at most 10 characters, `updateReservation`
resolves and `getReservationById` for the same id afterwards resolves with
exactly that row carrying the new state. -/
theorem updateReservation_getReservationById (c : Connection) (r : Reservation)
    (state : String) (hwf : c.WellFormed) (hr : r ∈ c.reservation)
    (hlen : state.length ≤ 10) (halive : c.alive = true) :
    ∃ ack, (updateReservation c r.id state).1 = .ok ack ∧
      getReservationById (updateReservation c r.id state).2 r.id =
        (.ok [{ r with state := state }], (updateReservation c r.id state).2) := by
  have hupd : updateReservation c r.id state =
      (.ok { affectedRows := (c.reservation.filter (fun x => decide (x.id = r.id))).length,
             insertId := 0,
             changedRows := ((c.reservation.filter (fun x => decide (x.id = r.id))).filter
               (fun x => decide (x.state ≠ state))).length },
       { c with
         reservation := c.reservation.map
           (fun x => if x.id = r.id then { x with state := state } else x) }) := by
    simp [updateReservation, halive, Nat.not_lt.mpr hlen]
  refine ⟨_, by rw [hupd], ?_⟩
  rw [hupd]
  have hmem : ({ r with state := state } : Reservation) ∈ c.reservation.map
      (fun x => if x.id = r.id then { x with state := state } else x) :=
    List.mem_map.mpr ⟨r, hr, by simp⟩
  have hnd : ((c.reservation.map
      (fun x => if x.id = r.id then { x with state := state } else x)).map
        (fun x => x.id)).Nodup := by
    rw [map_id_setState]
    exact hwf.1
  have hfil := filter_id_of_nodup _ _ hnd hmem
  simp only [getReservationById, halive]
  simpa using hfil

/-- Witness for C4: row 1 of the scenario moved to state `"done"`. -/
theorem updateReservation_getReservationById_witness :
    scenarioCreated.WellFormed ∧
    (⟨1, "u1", 10, 20, "wait"⟩ : Reservation) ∈ scenarioCreated.reservation ∧
    "done".length ≤ 10 ∧ scenarioCreated.alive = true ∧
    ∃ ack, (updateReservation scenarioCreated 1 "done").1 = .ok ack ∧
      getReservationById (updateReservation scenarioCreated 1 "done").2 1 =
        (.ok [⟨1, "u1", 10, 20, "done"⟩], (updateReservation scenarioCreated 1 "done").2) :=
  ⟨scenarioCreated_wellFormed, by rw [scenarioCreated_eq]; simp, by decide, rfl,
   updateReservation_getReservationById scenarioCreated ⟨1, "u1", 10, 20, "wait"⟩ "done"
     scenarioCreated_wellFormed (by rw [scenarioCreated_eq]; simp) (by decide) rfl⟩

/-- C8: on a connection that delivers the query, `updateReservation` for an id
that no row carries resolves, for every state string, with zero affected rows,
and leaves the table as it was. -/
theorem updateReservation_missing_id (c : Connection) (id : Nat) (state : String)
    (halive : c.alive = true) (hmiss : ∀ r ∈ c.reservation, r.id ≠ id) :
    updateReservation c id state =
      (.ok { affectedRows := 0, insertId := 0, changedRows := 0 }, c) := by
  have hnil := filter_id_eq_nil c.reservation id hmiss
  have hmap := setState_eq_self c.reservation id state hmiss
  obtain ⟨a, rows, k, coll⟩ := c
  simp only at hnil hmap halive
  simp [updateReservation, halive, hnil, hmap]

/-- Witness for C8: id 2 is not in the scenario's table. -/
theorem updateReservation_missing_id_witness :
    scenarioCreated.alive = true ∧ (∀ r ∈ scenarioCreated.reservation, r.id ≠ 2) ∧
    updateReservation scenarioCreated 2 "done" =
      (.ok { affectedRows := 0, insertId := 0, changedRows := 0 }, scenarioCreated) :=
  ⟨rfl, by rw [scenarioCreated_eq]; simp,
   updateReservation_missing_id scenarioCreated 2 "done" rfl
     (by rw [scenarioCreated_eq]; simp)⟩

/-- C9: a request with only `state` present is resolved by
`getReservationBylnglat` with both coordinates absent; that call resolves with
no rows when the connection delivers the query and rejects with the store's
error otherwise, and the handler answers with the empty row set or with status
500 and that error. -/
theorem reservationRoute_state_only (c : Connection) (state : String) :
    reservationCall ⟨none, none, none, none, some state⟩ =
        .getReservationBylnglat none none ∧
      getReservationBylnglat c none none =
        (if c.alive = true then .ok [] else .error .connectionLost, c) ∧
      reservationRoute c ⟨none, none, none, none, some state⟩ =
        (if c.alive = true then .send (.rows []) else .status500 .connectionLost, c) := by
  have hfil : c.reservation.filter
      (fun r => decide (lnglatWhere c.collation none none r = some true)) = [] := by
    rw [List.filter_eq_nil_iff]
    intro r _
    simpa using lnglatWhere_null c.collation r
  have hget : getReservationBylnglat c none none =
      (if c.alive = true then .ok [] else .error .connectionLost, c) := by
    cases ha : c.alive <;> simp [getReservationBylnglat, ha, hfil]
  refine ⟨rfl, hget, ?_⟩
  have hcall : reservationCall ⟨none, none, none, none, some state⟩ =
      .getReservationBylnglat none none := rfl
  simp only [reservationRoute, hcall, StoreCall.run, settle, hget]
  cases c.alive <;> simp [respond, Except.map]

/-- C10 as stated fails: `updateReservation(1, state)` with the object
`state[state]=a&state[user_id]=x` for `state` resolves and leaves the row of the
scenario with `user_id` `"x"` instead of `"u1"` (and state `"0"`). -/
theorem updateReservationWith_counterexample :
    scenarioCreated.reservation = [⟨1, "u1", 10, 20, "wait"⟩] ∧
    (updateReservationWith scenarioCreated 1
        (.object (.state, "a") [(.user_id, "x")])).1 =
      .ok { affectedRows := 1, insertId := 0, changedRows := 1 } ∧
    (updateReservationWith scenarioCreated 1
        (.object (.state, "a") [(.user_id, "x")])).2.reservation =
      [⟨1, "x", 10, 20, "0"⟩] ∧
    (⟨1, "x", 10, 20, "0"⟩ : Reservation).user_id ≠ "u1" := by
  refine ⟨rfl, rfl, ?_, by decide⟩
  decide

/-- C10 amended: whatever store function is called with whatever scalar
arguments (a number for `id`, strings for `userId` and `state`, numbers or
nothing for the coordinates), a row of the table is afterwards still at its
place with the same `id`, `user_id`, `longitude` and `latitude`, and its state
differs only when the call was `updateReservation` for that row's id. -/
theorem run_preserves_rows (c : Connection) (call : StoreCall) (k : Nat) (r : Reservation)
    (h : c.reservation[k]? = some r) :
    ∃ r', (call.run c).2.reservation[k]? = some r' ∧ r'.id = r.id ∧
      r'.user_id = r.user_id ∧ r'.longitude = r.longitude ∧ r'.latitude = r.latitude ∧
      (r'.state ≠ r.state → ∃ state, call = .updateReservation r.id state) := by
  rcases run_reservation c call with hrun | ⟨row, hrun⟩ | ⟨id, state, hcall, hrun⟩
  · exact ⟨r, by rw [hrun, h], rfl, rfl, rfl, rfl, fun hne => absurd rfl hne⟩
  · refine ⟨r, ?_, rfl, rfl, rfl, rfl, fun hne => absurd rfl hne⟩
    have hk : k < c.reservation.length := by
      by_contra hk
      rw [List.getElem?_eq_none (Nat.le_of_not_lt hk)] at h
      simp at h
    rw [hrun, List.getElem?_append_left hk, h]
  · by_cases hid : r.id = id
    · refine ⟨{ r with state := state }, ?_, rfl, rfl, rfl, rfl, fun _ => ⟨state, ?_⟩⟩
      · rw [hrun, List.getElem?_map, h]
        simp [hid]
      · rw [hcall, hid]
    · refine ⟨r, ?_, rfl, rfl, rfl, rfl, fun hne => absurd rfl hne⟩
      rw [hrun, List.getElem?_map, h]
      simp [hid]

/-- Witness for C10: the scenario's row under `updateReservation(1, "done")`. -/
theorem run_preserves_rows_witness :
    scenarioCreated.reservation[0]? = some ⟨1, "u1", 10, 20, "wait"⟩ ∧
    ∃ r', ((StoreCall.updateReservation 1 "done").run scenarioCreated).2.reservation[0]? =
        some r' ∧ r'.id = 1 ∧ r'.user_id = "u1" ∧ r'.longitude = 10 ∧ r'.latitude = 20 ∧
      (r'.state ≠ "wait" →
        ∃ state, StoreCall.updateReservation 1 "done" = .updateReservation 1 state) :=
  ⟨rfl, run_preserves_rows scenarioCreated (.updateReservation 1 "done") 0
     ⟨1, "u1", 10, 20, "wait"⟩ rfl⟩

/-! ### Dispatch of `GET /reservation` -/

/-- C1: a request with `userId`, `longitude` and `latitude` present is resolved
by calling `addReservation` with those three values, whatever `id` and `state`
are, and the handler answers with that call's outcome. -/
theorem reservationCall_create (q : Query) (userId : String) (longitude latitude : Rat)
    (hu : q.userId = some userId) (hlo : q.longitude = some longitude)
    (hla : q.latitude = some latitude) :
    reservationCall q = .addReservation userId longitude latitude ∧
      ∀ c : Connection, reservationRoute c q =
        (respond ((addReservation c userId longitude latitude).1.map .text),
         (addReservation c userId longitude latitude).2) := by
  have h : reservationCall q = .addReservation userId longitude latitude := by
    simp [reservationCall, hu, hlo, hla]
  exact ⟨h, fun c => by simp [reservationRoute, h, StoreCall.run, settle]⟩

/-- Witness for C1: all five fields present resolves to `addReservation`. -/
theorem reservationCall_create_witness :
    reservationCall ⟨some "u1", some 10, some 20, some 1, some "done"⟩ =
        .addReservation "u1" 10 20 ∧
      ∀ c : Connection,
        reservationRoute c ⟨some "u1", some 10, some 20, some 1, some "done"⟩ =
          (respond ((addReservation c "u1" 10 20).1.map .text),
           (addReservation c "u1" 10 20).2) :=
  reservationCall_create ⟨some "u1", some 10, some 20, some 1, some "done"⟩ "u1" 10 20
    rfl rfl rfl

/-- C5: when `userId`, `longitude` and `latitude` are not all three present and
`id` and `state` are both present, the request is resolved by calling
`updateReservation` with that `id` and `state`, and the handler answers with
that call's outcome. -/
theorem reservationCall_update (q : Query) (id : Nat) (state : String)
    (hnot : ¬ q.hasCreateFields) (hid : q.id = some id) (hst : q.state = some state) :
    reservationCall q = .updateReservation id state ∧
      ∀ c : Connection, reservationRoute c q =
        (respond ((updateReservation c id state).1.map .packet),
         (updateReservation c id state).2) := by
  have h : reservationCall q = .updateReservation id state := by
    obtain ⟨u, lo, la, i, s⟩ := q
    simp only at hid hst
    subst hid hst
    cases u <;> cases lo <;> cases la <;>
      simp [reservationCall, Query.hasCreateFields] at hnot ⊢
  exact ⟨h, fun c => by simp [reservationRoute, h, StoreCall.run, settle]⟩

/-- Witness for C5: `userId` and one coordinate next to `id` and `state`. -/
theorem reservationCall_update_witness :
    ¬ Query.hasCreateFields ⟨some "u1", some 10, none, some 1, some "done"⟩ ∧
      reservationCall ⟨some "u1", some 10, none, some 1, some "done"⟩ =
        .updateReservation 1 "done" :=
  ⟨by simp [Query.hasCreateFields],
   (reservationCall_update ⟨some "u1", some 10, none, some 1, some "done"⟩ 1 "done"
      (by simp [Query.hasCreateFields]) rfl rfl).1⟩

/-- C6: with exactly one field present the request goes to `getReservationById`
for `id`, to `getReservationByUserId` for `userId`, and to
`getReservationBylnglat` for `longitude`, `latitude` or `state`; with no field
present it goes to `getReservationBylnglat` as well. -/
theorem reservationCall_single_field :
    (∀ id : Nat, reservationCall ⟨none, none, none, some id, none⟩ =
        .getReservationById id) ∧
    (∀ userId : String, reservationCall ⟨some userId, none, none, none, none⟩ =
        .getReservationByUserId userId) ∧
    (∀ longitude : Rat, reservationCall ⟨none, some longitude, none, none, none⟩ =
        .getReservationBylnglat (some longitude) none) ∧
    (∀ latitude : Rat, reservationCall ⟨none, none, some latitude, none, none⟩ =
        .getReservationBylnglat none (some latitude)) ∧
    (∀ state : String, reservationCall ⟨none, none, none, none, some state⟩ =
        .getReservationBylnglat none none) ∧
    reservationCall ⟨none, none, none, none, none⟩ = .getReservationBylnglat none none :=
  ⟨fun _ => rfl, fun _ => rfl, fun _ => rfl, fun _ => rfl, fun _ => rfl, rfl⟩

/-- C7 as stated fails: a request with `id` and `longitude` only meets none of
the four conditions as the claim words them, yet it is resolved by
`getReservationById`, not by `getReservationBylnglat`; likewise `userId` with
`latitude` only is resolved by `getReservationByUserId`. -/
theorem reservationCall_fallback_counterexample :
    (¬ Query.hasCreateFields ⟨none, some 10, none, some 7, none⟩ ∧
      ¬ Query.hasUpdateFields ⟨none, some 10, none, some 7, none⟩ ∧
      ¬ Query.onlyId ⟨none, some 10, none, some 7, none⟩ ∧
      ¬ Query.onlyUserId ⟨none, some 10, none, some 7, none⟩ ∧
      reservationCall ⟨none, some 10, none, some 7, none⟩ = .getReservationById 7 ∧
      (reservationCall ⟨none, some 10, none, some 7, none⟩).isBylnglat = false) ∧
    (¬ Query.hasCreateFields ⟨some "u1", none, some 20, none, none⟩ ∧
      ¬ Query.hasUpdateFields ⟨some "u1", none, some 20, none, none⟩ ∧
      ¬ Query.onlyId ⟨some "u1", none, some 20, none, none⟩ ∧
      ¬ Query.onlyUserId ⟨some "u1", none, some 20, none, none⟩ ∧
      reservationCall ⟨some "u1", none, some 20, none, none⟩ =
        .getReservationByUserId "u1" ∧
      (reservationCall ⟨some "u1", none, some 20, none, none⟩).isBylnglat = false) := by
  refine ⟨⟨?_, ?_, ?_, ?_, rfl, ?_⟩, ⟨?_, ?_, ?_, ?_, rfl, ?_⟩⟩ <;>
    simp [Query.hasCreateFields, Query.hasUpdateFields, Query.onlyId, Query.onlyUserId,
      reservationCall, StoreCall.isBylnglat]

/-- C7 amended: the request goes to `getReservationBylnglat` exactly when it
meets none of the four conditions with condition 3 read as "`id` is present"
and condition 4 as "`userId` is present"; it is then called with the request's
own `longitude` and `latitude`.  A request with `id` (or `userId`) and exactly
one coordinate goes to `getReservationById` (or `getReservationByUserId`). -/
theorem reservationCall_fallback_iff :
    (∀ q : Query, (reservationCall q).isBylnglat = true ↔
      (¬ q.hasCreateFields ∧ ¬ q.hasUpdateFields ∧ ¬ q.id.isSome = true ∧
        ¬ q.userId.isSome = true)) ∧
    (∀ (q : Query) (lo la : Option Rat),
      reservationCall q = .getReservationBylnglat lo la ↔
        ((reservationCall q).isBylnglat = true ∧ lo = q.longitude ∧ la = q.latitude)) ∧
    (∀ (id : Nat) (x : Rat),
      reservationCall ⟨none, some x, none, some id, none⟩ = .getReservationById id ∧
      reservationCall ⟨none, none, some x, some id, none⟩ = .getReservationById id) ∧
    (∀ (userId : String) (x : Rat),
      reservationCall ⟨some userId, some x, none, none, none⟩ =
        .getReservationByUserId userId ∧
      reservationCall ⟨some userId, none, some x, none, none⟩ =
        .getReservationByUserId userId) := by
  refine ⟨?_, ?_, fun _ _ => ⟨rfl, rfl⟩, fun _ _ => ⟨rfl, rfl⟩⟩
  · rintro ⟨u, lo, la, i, s⟩
    cases u <;> cases lo <;> cases la <;> cases i <;> cases s <;>
      simp [reservationCall, StoreCall.isBylnglat, Query.hasCreateFields,
        Query.hasUpdateFields]
  · rintro ⟨u, lo, la, i, s⟩ lo' la'
    cases u <;> cases lo <;> cases la <;> cases i <;> cases s <;>
      simp [reservationCall, StoreCall.isBylnglat, eq_comm]

end Server
